import Mathlib

/-!
Verification of `src/app.js`, a small procedural teaching script.

The embedding models JavaScript numbers as `JSNumber` (a rational, or a
not-a-number marker), the interactive `prompt` collaborator as a stream of
input strings (for `validaSenha`, a stream of `Option String`, since the host
`prompt` may return `null`), and the console sink as explicit lists of output
events.  The host functions `parseInt` and `parseFloat` are modelled at the
level the program exercises: leading whitespace, an optional sign, decimal
(and, for `parseInt`, hexadecimal `0x`) digit prefixes, and a fractional part
for `parseFloat`; an empty digit prefix yields the not-a-number marker.
-/

/-- A JavaScript number as the program uses it: either the not-a-number
value or an ordinary (here: rational) number. -/
inductive JSNumber : Type where
  | nan : JSNumber
  | num (q : ℚ) : JSNumber
  deriving DecidableEq

/-- JavaScript strict equality `===` restricted to numbers: `NaN` is equal
to nothing, ordinary numbers compare by value. -/
def jsStrictEq : JSNumber → JSNumber → Bool
  | JSNumber.nan, _ => false
  | _, JSNumber.nan => false
  | JSNumber.num a, JSNumber.num b => a = b

/-- Value of a list of decimal digit characters, most significant first. -/
def digitsToNat (ds : List Char) : ℕ :=
  ds.foldl (fun acc c => acc * 10 + (c.toNat - 48)) 0

/-- Whether a character is a hexadecimal digit (0-9, a-f, A-F). -/
def isHexDigitChar (c : Char) : Bool :=
  c.isDigit || ('a' ≤ c && c ≤ 'f') || ('A' ≤ c && c ≤ 'F')

/-- Value of one hexadecimal digit character. -/
def hexDigitVal (c : Char) : ℕ :=
  if c.isDigit then c.toNat - 48
  else if 'a' ≤ c ∧ c ≤ 'f' then c.toNat - 87
  else c.toNat - 55

/-- Value of a list of hexadecimal digit characters, most significant first. -/
def hexDigitsToNat (ds : List Char) : ℕ :=
  ds.foldl (fun acc c => acc * 16 + hexDigitVal c) 0

/-- Split an optional leading `+`/`-` sign off a character list, returning
the sign as an integer factor. -/
def splitSign : List Char → ℤ × List Char
  | '-' :: rest => (-1, rest)
  | '+' :: rest => (1, rest)
  | l => (1, l)

/-- Model of the host `parseInt` with the default radix: skip leading
whitespace, read an optional sign, then the longest prefix of hexadecimal
digits after `0x`/`0X`, or of decimal digits otherwise; no digits means
not-a-number. -/
def parseIntJS (s : String) : JSNumber :=
  let l := s.data.dropWhile Char.isWhitespace
  let p := splitSign l
  match p.2 with
  | '0' :: 'x' :: rest =>
      let ds := rest.takeWhile isHexDigitChar
      if ds.isEmpty then JSNumber.nan
      else JSNumber.num (mkRat (p.1 * (hexDigitsToNat ds : ℤ)) 1)
  | '0' :: 'X' :: rest =>
      let ds := rest.takeWhile isHexDigitChar
      if ds.isEmpty then JSNumber.nan
      else JSNumber.num (mkRat (p.1 * (hexDigitsToNat ds : ℤ)) 1)
  | l2 =>
      let ds := l2.takeWhile Char.isDigit
      if ds.isEmpty then JSNumber.nan
      else JSNumber.num (mkRat (p.1 * (digitsToNat ds : ℤ)) 1)

/-- Model of the host `parseFloat` on decimal literals: skip leading
whitespace, read an optional sign, integer digits, and an optional `.` with
fraction digits; no digits at all means not-a-number.  (Exponent notation and
`Infinity`, which the program never receives in the spec's scenarios, are not
modelled.)  The value `i.f₁…f_k` is the rational
`(i * 10^k + f) / 10^k = i + f / 10^k`, built with `mkRat`. -/
def parseFloatJS (s : String) : JSNumber :=
  let l := s.data.dropWhile Char.isWhitespace
  let p := splitSign l
  let intDs := p.2.takeWhile Char.isDigit
  let rest := p.2.dropWhile Char.isDigit
  match rest with
  | '.' :: tail =>
      let fracDs := tail.takeWhile Char.isDigit
      if intDs.isEmpty ∧ fracDs.isEmpty then JSNumber.nan
      else
        JSNumber.num
          (mkRat
            (p.1 * ((digitsToNat intDs : ℤ) * 10 ^ fracDs.length +
              (digitsToNat fracDs : ℤ)))
            (10 ^ fracDs.length))
  | _ =>
      if intDs.isEmpty then JSNumber.nan
      else JSNumber.num (mkRat (p.1 * (digitsToNat intDs : ℤ)) 1)

/-! ### 1. `loopWhile` (CountdownPrompt), src/app.js lines 2-9 -/

/-- One console line emitted by `loopWhile`: either
`console.log("Você digitou:", numero)` or the final termination message. -/
inductive OutLine : Type where
  | digitado (n : JSNumber) : OutLine
  | encerrado : OutLine
  deriving DecidableEq

/-- Whether an output line is a "Você digitou" (entered-value) line. -/
def OutLine.isDigitado : OutLine → Bool
  | OutLine.digitado _ => true
  | OutLine.encerrado => false

/-- `loopWhile` run against a finite list of prompt answers: each answer is
parsed with `parseInt`; while the parsed value is not strictly equal to 3 it
is logged and the next answer is read.  Returns the emitted lines, or `none`
when the answers run out before the sentinel arrives. -/
def loopWhileRun : List String → Option (List OutLine)
  | [] => none
  | s :: rest =>
      let numero := parseIntJS s
      if jsStrictEq numero (JSNumber.num 3) then
        some [OutLine.encerrado]
      else
        (loopWhileRun rest).map (fun ls => OutLine.digitado numero :: ls)

/-- `loopWhile` run against an infinite stream of prompt answers, with fuel:
`loopWhileTermB inp i fuel = true` when, starting from answer index `i`, a
value parsing to 3 is met within `fuel` reads. -/
def loopWhileTermB (inp : ℕ → String) : ℕ → ℕ → Bool
  | _, 0 => false
  | i, fuel + 1 =>
      if jsStrictEq (parseIntJS (inp i)) (JSNumber.num 3) then true
      else loopWhileTermB inp (i + 1) fuel

/-- Termination of `loopWhile` on an infinite answer stream: some finite
amount of fuel suffices. -/
def loopWhileTerminates (inp : ℕ → String) : Prop :=
  ∃ fuel, loopWhileTermB inp 0 fuel = true

/-! ### 2. `validaSenha` (PasswordGate), src/app.js lines 12-31 -/

/-- Result of `validaSenha`: the final attempt counter, the access flag, and
the message printed at the end. -/
structure GateResult : Type where
  tentativas : ℕ
  acesso : Bool
  mensagem : String
  deriving DecidableEq

/-- The `do...while` loop of `validaSenha`: `attempts k` is the string
returned by the k-th `prompt` (or `none` for a `null` return); `tentativas`
is the counter so far; the fuel equals the remaining allowed iterations
(3 − tentativas, so fuel 3 at counter 0 is exact).  Each iteration reads an
attempt, increments the counter, breaks with access on strict string
equality with `"123456"`, and otherwise continues while the counter is
below 3. -/
def validaSenhaLoop (attempts : ℕ → Option String) : ℕ → ℕ → ℕ × Bool
  | 0, tentativas => (tentativas, false)
  | fuel + 1, tentativas =>
      let tentativa := attempts tentativas
      let tentativas' := tentativas + 1
      if tentativa = some "123456" then (tentativas', true)
      else if tentativas' < 3 then validaSenhaLoop attempts fuel tentativas'
      else (tentativas', false)

/-- `validaSenha`: run the loop from counter 0, then print the granted or
blocked message according to the access flag. -/
def validaSenha (attempts : ℕ → Option String) : GateResult :=
  let r := validaSenhaLoop attempts 3 0
  { tentativas := r.1
    acesso := r.2
    mensagem := if r.2 then "Acesso concedido!" else "Senha bloqueada!" }

/-! ### 3. `exibirListaFixa` (FixedListPrinter), src/app.js lines 34-38 -/

/-- One console line emitted by `exibirListaFixa`: the header or a value. -/
inductive FixedOut : Type where
  | header (s : String) : FixedOut
  | value (n : ℚ) : FixedOut
  deriving DecidableEq

/-- The hardcoded list of `exibirListaFixa`. -/
def lista : List ℚ := [10, 20, 30, 40]

/-- `exibirListaFixa`: log the header, then log each element of `lista` in
order. -/
def exibirListaFixa : List FixedOut :=
  FixedOut.header "Lista fixa de 4 números:" :: lista.map FixedOut.value

/-! ### 4. `solicitarCincoNumeros` (UserListCollector), src/app.js 41-49 -/

/-- One event of `solicitarCincoNumeros`: a prompt shown to the user, the
header line, or a logged collected value. -/
inductive CollectOut : Type where
  | prompt (label : String) : CollectOut
  | header (s : String) : CollectOut
  | value (n : JSNumber) : CollectOut
  deriving DecidableEq

/-- The `for` loop of `solicitarCincoNumeros`: for `i` from the given start
while `i < 5`, prompt with the 1-based index, parse the answer with
`parseFloat` and push it.  Returns the collected numbers and the prompt
events in order; the fuel equals the remaining iterations. -/
def solicitarLoop (inp : ℕ → String) : ℕ → ℕ → List JSNumber × List CollectOut
  | 0, _ => ([], [])
  | fuel + 1, i =>
      if i < 5 then
        let label := "Digite o " ++ toString (i + 1) ++ "º número:"
        let num := parseFloatJS (inp i)
        let r := solicitarLoop inp fuel (i + 1)
        (num :: r.1, CollectOut.prompt label :: r.2)
      else ([], [])

/-- `solicitarCincoNumeros`: run the collection loop from `i = 0`, then log
the header and each collected value in insertion order. -/
def solicitarCincoNumeros (inp : ℕ → String) :
    List JSNumber × List CollectOut :=
  let r := solicitarLoop inp 5 0
  (r.1, r.2 ++ CollectOut.header "Números digitados:" :: r.1.map CollectOut.value)

/-! ### 5.-8. The pure functions, src/app.js lines 52-69 -/

/-- `mensagemPersonalizada`: the constant welcome message. -/
def mensagemPersonalizada : String :=
  "Bem-vindo ao programa de Ciência de Dados!"

/-- `saudacao`: interpolate the name into the greeting template. -/
def saudacao (nome : String) : String :=
  "Olá, " ++ nome ++ ", que bom ter você no programa Trilhas."

/-- `calcularQuadrado`: `numero ** 2` over the numeric domain. -/
def calcularQuadrado (numero : ℚ) : ℚ :=
  numero ^ 2

/-- `Subtracao`: `a - b` over the numeric domain. -/
def Subtracao (a b : ℚ) : ℚ :=
  a - b

/-! ### Driver, src/app.js lines 72-88 -/

/-- The six demonstrated components, in the spec's naming. -/
inductive Component : Type where
  | countdown
  | gate
  | fixedList
  | collector
  | textFns
  | subtractor
  deriving DecidableEq

/-- One top-level driver event: a section header logged by the driver, or
the invocation of a component (whose own output follows at that point). -/
inductive DriverEvent : Type where
  | header (s : String) : DriverEvent
  | call (c : Component) : DriverEvent
  deriving DecidableEq

/-- The component of a driver event, when it is a call. -/
def DriverEvent.callOf : DriverEvent → Option Component
  | DriverEvent.call c => some c
  | DriverEvent.header _ => none

/-- The top-level script, lines 72-88: headers and component invocations in
source order.  Lines 85-87 (welcome message, greeting, square) are the
TextFunctions demonstration and line 88 (subtraction) the Subtractor
demonstration; both run under the single `=== FUNÇÕES ===` header. -/
def driverTrace : List DriverEvent :=
  [DriverEvent.header "=== LOOP WHILE ===",
   DriverEvent.call Component.countdown,
   DriverEvent.header "\n=== VALIDAÇÃO DE SENHA (do...while) ===",
   DriverEvent.call Component.gate,
   DriverEvent.header "\n=== LISTA FIXA ===",
   DriverEvent.call Component.fixedList,
   DriverEvent.header "\n=== SOLICITAÇÃO DE 5 NÚMEROS ===",
   DriverEvent.call Component.collector,
   DriverEvent.header "\n=== FUNÇÕES ===",
   DriverEvent.call Component.textFns,
   DriverEvent.call Component.subtractor]

/-- Whether every call event in the trace is immediately preceded by a
header event (the first argument carries the previous event). -/
def eachCallAfterHeader : Option DriverEvent → List DriverEvent → Bool
  | _, [] => true
  | prev, e :: rest =>
      match e with
      | DriverEvent.call _ =>
          (match prev with
           | some (DriverEvent.header _) => true
           | _ => false) && eachCallAfterHeader (some e) rest
      | DriverEvent.header _ => eachCallAfterHeader (some e) rest

/-! ## Theorems -/

set_option maxRecDepth 8000

/-- An existential over the three attempt indices is the three-way
disjunction. -/
theorem exists_lt_three_iff (P : ℕ → Prop) :
    (∃ i, i < 3 ∧ P i) ↔ P 0 ∨ P 1 ∨ P 2 := by
  constructor
  · rintro ⟨i, hi, h⟩
    interval_cases i <;> tauto
  · rintro (h | h | h)
    exacts [⟨0, by omega, h⟩, ⟨1, by omega, h⟩, ⟨2, by omega, h⟩]

/-- C1: `validaSenha` terminates granting access and emitting
"Acesso concedido!" iff one of the first three prompted strings equals the
secret "123456" (in particular a match on the 3rd attempt still grants
access), and when none of the first three attempts equals the secret it
denies access and emits "Senha bloqueada!". -/
theorem validaSenha_grants_iff (attempts : ℕ → Option String) :
    ((validaSenha attempts).acesso = true ↔
      ∃ i, i < 3 ∧ attempts i = some "123456") ∧
    ((validaSenha attempts).mensagem = "Acesso concedido!" ↔
      ∃ i, i < 3 ∧ attempts i = some "123456") ∧
    ((∀ i, i < 3 → attempts i ≠ some "123456") →
      (validaSenha attempts).acesso = false ∧
        (validaSenha attempts).mensagem = "Senha bloqueada!") := by
  have key : (validaSenha attempts).acesso = true ↔
      attempts 0 = some "123456" ∨ attempts 1 = some "123456" ∨
        attempts 2 = some "123456" := by
    by_cases h0 : attempts 0 = some "123456" <;>
      by_cases h1 : attempts 1 = some "123456" <;>
      by_cases h2 : attempts 2 = some "123456" <;>
      simp [validaSenha, validaSenhaLoop, h0, h1, h2]
  have hiff : (validaSenha attempts).acesso = true ↔
      ∃ i, i < 3 ∧ attempts i = some "123456" :=
    key.trans (exists_lt_three_iff fun i => attempts i = some "123456").symm
  have msg : (validaSenha attempts).mensagem =
      if (validaSenha attempts).acesso then "Acesso concedido!"
      else "Senha bloqueada!" := rfl
  have msgIff : (validaSenha attempts).mensagem = "Acesso concedido!" ↔
      (validaSenha attempts).acesso = true := by
    rw [msg]
    cases hA : (validaSenha attempts).acesso <;> simp
  refine ⟨hiff, msgIff.trans hiff, fun hnone => ?_⟩
  have hA : (validaSenha attempts).acesso = false := by
    cases hA : (validaSenha attempts).acesso
    · rfl
    · obtain ⟨i, hi, hEq⟩ := hiff.mp hA
      exact absurd hEq (hnone i hi)
  refine ⟨hA, ?_⟩
  rw [msg, hA]
  simp

/-- Witness for C1: a stream matching only on the 3rd attempt is granted
access, and a stream never matching is denied with the blocked message. -/
theorem validaSenha_grants_iff_witness :
    (validaSenha fun i => if i = 2 then some "123456" else some "senha").acesso
        = true ∧
      (validaSenha fun _ => some "000000").mensagem = "Senha bloqueada!" :=
  ⟨(validaSenha_grants_iff fun i =>
      if i = 2 then some "123456" else some "senha").1.mpr
      ⟨2, by omega, by simp⟩,
    ((validaSenha_grants_iff fun _ => some "000000").2.2
      (fun i _ => by simp)).2⟩

/-- C10: each password attempt is compared to the secret by strict equality
with no trimming, case folding, or numeric conversion: any submitted value
other than exactly `some "123456"` falls through to the counter check with
the attempt counter incremented exactly once (the model is total, so no
error is raised); in particular a `null` prompt result, the empty string,
and "123456" with surrounding or trailing whitespace all exhaust the three
attempts and end in denial. -/
theorem validaSenha_strict_comparison :
    (∀ (attempts : ℕ → Option String) (k fuel : ℕ),
        attempts k ≠ some "123456" →
        validaSenhaLoop attempts (fuel + 1) k =
          if k + 1 < 3 then validaSenhaLoop attempts fuel (k + 1)
          else (k + 1, false)) ∧
    validaSenha (fun _ => none) = ⟨3, false, "Senha bloqueada!"⟩ ∧
    validaSenha (fun _ => some "") = ⟨3, false, "Senha bloqueada!"⟩ ∧
    validaSenha (fun _ => some " 123456 ") = ⟨3, false, "Senha bloqueada!"⟩ ∧
    validaSenha (fun _ => some "123456 ") = ⟨3, false, "Senha bloqueada!"⟩ := by
  refine ⟨fun attempts k fuel h => ?_, by decide, by decide, by decide,
    by decide⟩
  simp [validaSenhaLoop, h]

/-- Witness for C10: the empty-string attempt at counter 0 is counted once
and the loop moves on to the next attempt. -/
theorem validaSenha_strict_comparison_witness :
    validaSenhaLoop (fun _ => some "") (2 + 1) 0 =
      if 0 + 1 < 3 then validaSenhaLoop (fun _ => some "") 2 (0 + 1)
      else (0 + 1, false) :=
  validaSenha_strict_comparison.1 (fun _ => some "") 0 2 (by decide)

/-- C5: `exibirListaFixa` emits, for every invocation and independent of any
input or external state, exactly one header line followed by the values 10,
20, 30, 40 in that order, one per line, and nothing else. -/
theorem exibirListaFixa_emits_fixed_sequence :
    exibirListaFixa =
      [FixedOut.header "Lista fixa de 4 números:", FixedOut.value 10,
       FixedOut.value 20, FixedOut.value 30, FixedOut.value 40] := by
  rfl

/-- C7: `Subtracao` is a pure function returning `a - b` for every pair of
numbers, with no validation or special-casing; in particular
`Subtracao 10 3 = 7` and `Subtracao 3 10 = -7`. -/
theorem Subtracao_returns_difference :
    (∀ a b : ℚ, Subtracao a b = a - b) ∧
      Subtracao 10 3 = 7 ∧ Subtracao 3 10 = -7 := by
  refine ⟨fun a b => rfl, by norm_num [Subtracao], by norm_num [Subtracao]⟩

/-- C6: `calcularQuadrado` is a pure function returning its argument raised
to the second power for every number; negative inputs yield a non-negative
result, and `calcularQuadrado 5 = 25`, `calcularQuadrado (-4) = 16`,
`calcularQuadrado 0 = 0`. -/
theorem calcularQuadrado_squares :
    (∀ n : ℚ, calcularQuadrado n = n ^ 2 ∧ (n < 0 → 0 ≤ calcularQuadrado n)) ∧
      calcularQuadrado 5 = 25 ∧ calcularQuadrado (-4) = 16 ∧
      calcularQuadrado 0 = 0 := by
  refine ⟨fun n => ⟨rfl, fun _ => ?_⟩, by norm_num [calcularQuadrado],
    by norm_num [calcularQuadrado], by norm_num [calcularQuadrado]⟩
  unfold calcularQuadrado
  positivity

/-- Witness for C6: the negative input −4 satisfies the hypothesis and the
squared result is non-negative. -/
theorem calcularQuadrado_squares_witness : (0 : ℚ) ≤ calcularQuadrado (-4) :=
  (calcularQuadrado_squares.1 (-4)).2 (by norm_num)

/-- When the answers before the sentinel all parse to something other than
3 and the final answer parses to 3, `loopWhile` logs exactly the parsed
pre-sentinel values in order, then the termination message. -/
theorem loopWhileRun_append_sentinel (x : String)
    (hx : jsStrictEq (parseIntJS x) (JSNumber.num 3) = true) :
    ∀ xs : List String,
      (∀ s ∈ xs, jsStrictEq (parseIntJS s) (JSNumber.num 3) = false) →
      loopWhileRun (xs ++ [x]) =
        some ((xs.map fun s => OutLine.digitado (parseIntJS s)) ++
          [OutLine.encerrado])
  | [], _ => by simp [loopWhileRun, hx]
  | s :: rest, hxs => by
      have hs := hxs s (List.mem_cons_self s rest)
      have ih := loopWhileRun_append_sentinel x hx rest
        fun t ht => hxs t (List.mem_cons_of_mem _ ht)
      simp [loopWhileRun, hs, ih]

/-- C2: for an answer sequence whose last value is the first one parsing
to 3, `loopWhile` emits one "Você digitou" line per pre-sentinel answer,
carrying the corresponding parsed value, so the number of such lines is the
input count minus 1; with no pre-sentinel answers no intermediate line is
emitted. -/
theorem loopWhile_digitado_count (xs : List String) (x : String)
    (hx : jsStrictEq (parseIntJS x) (JSNumber.num 3) = true)
    (hxs : ∀ s ∈ xs, jsStrictEq (parseIntJS s) (JSNumber.num 3) = false) :
    loopWhileRun (xs ++ [x]) =
      some ((xs.map fun s => OutLine.digitado (parseIntJS s)) ++
        [OutLine.encerrado]) ∧
    ((xs.map fun s => OutLine.digitado (parseIntJS s)) ++
        [OutLine.encerrado]).countP OutLine.isDigitado =
      (xs ++ [x]).length - 1 := by
  refine ⟨loopWhileRun_append_sentinel x hx xs hxs, ?_⟩
  simp [List.countP_append, List.countP_map, List.countP_cons,
    Function.comp, OutLine.isDigitado, List.countP_true]

/-- Witness for C2: two non-sentinel answers then "3" give exactly the two
labeled lines and the termination message; 3 = 3 − 0 inputs yield 2 lines. -/
theorem loopWhile_digitado_count_witness :
    loopWhileRun (["5", "abc"] ++ ["3"]) =
      some ((["5", "abc"].map fun s => OutLine.digitado (parseIntJS s)) ++
        [OutLine.encerrado]) ∧
    ((["5", "abc"].map fun s => OutLine.digitado (parseIntJS s)) ++
        [OutLine.encerrado]).countP OutLine.isDigitado =
      (["5", "abc"] ++ ["3"]).length - 1 :=
  loopWhile_digitado_count ["5", "abc"] "3" (by decide) (by decide)

/-- C9: the stop condition of `loopWhile` is evaluated on the
`parseInt`-parsed value, not the raw string: any answer whose parse equals
3 stops the loop at once, is not emitted as an intermediate value, and
behaves exactly as the literal "3"; in particular "3.9" and "3abc" parse
to 3. -/
theorem loopWhile_sentinel_by_parse :
    (∀ (s : String) (rest : List String),
        parseIntJS s = JSNumber.num 3 →
        loopWhileRun (s :: rest) = some [OutLine.encerrado] ∧
        loopWhileRun (s :: rest) = loopWhileRun ("3" :: rest)) ∧
    parseIntJS "3.9" = JSNumber.num 3 ∧
    parseIntJS "3abc" = JSNumber.num 3 := by
  refine ⟨fun s rest h => ?_, by decide, by decide⟩
  have hEq : jsStrictEq (parseIntJS s) (JSNumber.num 3) = true := by
    rw [h]; decide
  have hEq3 : jsStrictEq (parseIntJS "3") (JSNumber.num 3) = true := by decide
  constructor <;> simp [loopWhileRun, hEq, hEq3]

/-- Witness for C9: entering "3.9" first stops the loop immediately with no
intermediate line, exactly as entering "3" would. -/
theorem loopWhile_sentinel_by_parse_witness :
    loopWhileRun ("3.9" :: ["7"]) = some [OutLine.encerrado] ∧
    loopWhileRun ("3.9" :: ["7"]) = loopWhileRun ("3" :: ["7"]) :=
  loopWhile_sentinel_by_parse.1 "3.9" ["7"] (by decide)

/-- One unfolding step of the fueled `loopWhile` run. -/
theorem loopWhileTermB_succ (inp : ℕ → String) (i fuel : ℕ) :
    loopWhileTermB inp i (fuel + 1) =
      if jsStrictEq (parseIntJS (inp i)) (JSNumber.num 3) then true
      else loopWhileTermB inp (i + 1) fuel := rfl

/-- If the fueled `loopWhile` run reports termination, some answer parses
to the sentinel 3. -/
theorem loopWhileTermB_sound (inp : ℕ → String) :
    ∀ fuel i, loopWhileTermB inp i fuel = true →
      ∃ n, jsStrictEq (parseIntJS (inp n)) (JSNumber.num 3) = true
  | 0, i => by simp [loopWhileTermB]
  | fuel + 1, i => by
      intro ht
      rw [loopWhileTermB_succ] at ht
      by_cases h : jsStrictEq (parseIntJS (inp i)) (JSNumber.num 3) = true
      · exact ⟨i, h⟩
      · rw [if_neg h] at ht
        exact loopWhileTermB_sound inp fuel (i + 1) ht

/-- If the answer at offset `n` from `i` parses to the sentinel 3, fuel
`n + 1` suffices for the fueled `loopWhile` run from `i` to terminate. -/
theorem loopWhileTermB_complete (inp : ℕ → String) :
    ∀ n i, jsStrictEq (parseIntJS (inp (i + n))) (JSNumber.num 3) = true →
      loopWhileTermB inp i (n + 1) = true
  | 0, i => fun h => by
      rw [loopWhileTermB_succ,
        if_pos (show jsStrictEq (parseIntJS (inp i)) (JSNumber.num 3) = true
          from h)]
  | n + 1, i => fun h => by
      by_cases hi : jsStrictEq (parseIntJS (inp i)) (JSNumber.num 3) = true
      · rw [loopWhileTermB_succ, if_pos hi]
      · have h' : jsStrictEq (parseIntJS (inp (i + 1 + n)))
            (JSNumber.num 3) = true := by
          have hidx : i + 1 + n = i + (n + 1) := by omega
          rw [hidx]; exact h
        rw [loopWhileTermB_succ, if_neg hi]
        exact loopWhileTermB_complete inp n (i + 1) h'

/-- C3: `loopWhile` terminates iff some answer from the input stream parses
to the sentinel 3; in particular on a stream in which no answer parses to 3
the loop never terminates, and sustained non-numeric input (e.g. "abc")
parses to the not-a-number value, which is never strictly equal to 3. -/
theorem loopWhile_terminates_iff (inp : ℕ → String) :
    (loopWhileTerminates inp ↔
      ∃ n, jsStrictEq (parseIntJS (inp n)) (JSNumber.num 3) = true) ∧
    ((∀ n, parseIntJS (inp n) = JSNumber.nan) → ¬ loopWhileTerminates inp) ∧
    parseIntJS "abc" = JSNumber.nan ∧
    jsStrictEq JSNumber.nan (JSNumber.num 3) = false := by
  have hiff : loopWhileTerminates inp ↔
      ∃ n, jsStrictEq (parseIntJS (inp n)) (JSNumber.num 3) = true := by
    constructor
    · rintro ⟨fuel, hf⟩
      exact loopWhileTermB_sound inp fuel 0 hf
    · rintro ⟨n, hn⟩
      exact ⟨n + 1, loopWhileTermB_complete inp n 0 (by simpa using hn)⟩
  refine ⟨hiff, fun hnan ht => ?_, by decide, by decide⟩
  obtain ⟨n, hn⟩ := hiff.mp ht
  rw [hnan n] at hn
  simp [jsStrictEq] at hn

/-- Witness for C3: the constant stream of the non-numeric answer "abc"
never terminates the loop. -/
theorem loopWhile_terminates_iff_witness :
    ¬ loopWhileTerminates fun _ => "abc" :=
  (loopWhile_terminates_iff fun _ => "abc").2.1 fun _ => by decide

/-- C4: `solicitarCincoNumeros` issues exactly five prompts labeled with
the 1-based index of the requested value, collects exactly the five parsed
inputs in arrival order (length 5), and after the header emits each
collected value in insertion order; for the inputs
["1.5", "2", "-3", "0", "100"] the collected sequence is
[1.5, 2, -3, 0, 100]. -/
theorem solicitarCincoNumeros_collects :
    (∀ inp : ℕ → String,
      (solicitarCincoNumeros inp).1 =
        [parseFloatJS (inp 0), parseFloatJS (inp 1), parseFloatJS (inp 2),
         parseFloatJS (inp 3), parseFloatJS (inp 4)] ∧
      (solicitarCincoNumeros inp).1.length = 5 ∧
      (solicitarCincoNumeros inp).2 =
        [CollectOut.prompt "Digite o 1º número:",
         CollectOut.prompt "Digite o 2º número:",
         CollectOut.prompt "Digite o 3º número:",
         CollectOut.prompt "Digite o 4º número:",
         CollectOut.prompt "Digite o 5º número:",
         CollectOut.header "Números digitados:",
         CollectOut.value (parseFloatJS (inp 0)),
         CollectOut.value (parseFloatJS (inp 1)),
         CollectOut.value (parseFloatJS (inp 2)),
         CollectOut.value (parseFloatJS (inp 3)),
         CollectOut.value (parseFloatJS (inp 4))]) ∧
    (solicitarCincoNumeros fun i =>
        ["1.5", "2", "-3", "0", "100"].getD i "").1 =
      [JSNumber.num (3 / 2), JSNumber.num 2, JSNumber.num (-3),
       JSNumber.num 0, JSNumber.num 100] := by
  refine ⟨fun inp => ⟨rfl, rfl, rfl⟩, ?_⟩
  have h : (solicitarCincoNumeros fun i =>
        ["1.5", "2", "-3", "0", "100"].getD i "").1 =
      [JSNumber.num (mkRat 15 10), JSNumber.num (mkRat 2 1),
       JSNumber.num (mkRat (-3) 1), JSNumber.num (mkRat 0 1),
       JSNumber.num (mkRat 100 1)] := by rfl
  rw [h]
  norm_num [Rat.mkRat_eq_div]

/-- C8 counterexample: in the driver trace the Subtractor demonstration
(line 88) follows the TextFunctions demonstration directly, with no section
header of its own between them, so it is not the case that a section header
line is emitted before each component's output. -/
theorem driver_no_header_before_subtractor :
    driverTrace.get? 9 = some (DriverEvent.call Component.textFns) ∧
    driverTrace.get? 10 = some (DriverEvent.call Component.subtractor) ∧
    eachCallAfterHeader none driverTrace = false := by decide

/-- C8 (amended): on program start the driver invokes each of the six
components exactly once, in the fixed order CountdownPrompt, PasswordGate,
FixedListPrinter, UserListCollector, TextFunctions, Subtractor, with no
component skipped, repeated, or reordered; a section header line
immediately precedes each of the first five components' output, while
Subtractor runs under the "=== FUNÇÕES ===" header it shares with
TextFunctions. -/
theorem driver_invokes_components_in_order :
    driverTrace.filterMap DriverEvent.callOf =
      [Component.countdown, Component.gate, Component.fixedList,
       Component.collector, Component.textFns, Component.subtractor] ∧
    (driverTrace.filterMap DriverEvent.callOf).Nodup ∧
    eachCallAfterHeader none (driverTrace.take 10) = true ∧
    driverTrace.get? 8 = some (DriverEvent.header "\n=== FUNÇÕES ===") ∧
    driverTrace.get? 9 = some (DriverEvent.call Component.textFns) ∧
    driverTrace.get? 10 = some (DriverEvent.call Component.subtractor) := by
  decide
